import Mathlib

/-!
# Verification of the Dash network orchestration core (`dash_net.py`)

Shallow embedding of the data model and operations of the `DashSporks` and
`DashNet` classes of `electrum_dash/dash_net.py`, together with theorems
settling the specification claims about them.

Conventions of the embedding:
* Python `dict`s keyed by strings or integers are modelled either as
  association lists (when insertion order / value updates matter) or as
  `Finset String` of their keys (when only key membership matters).
* Python `float` time values are modelled as rationals (`ℚ`).
* The one place where IEEE-754 double arithmetic is observable
  (`round(peers_cnt * 0.51)` in `_gather_sporks`) is modelled exactly:
  rationals of the form `numerator / 2 ^ 53` with explicit
  round-to-nearest-ties-to-even at 53 significant bits.
* Fallible code (`is_valid_hostname` raising `IndexError`) returns `Option`.
-/

namespace DashNetSpec

/-! ## Module-level constants (`dash_net.py` lines 56-60) -/

/-- Thursday, January 1, 2099 12:00:00 AM (`Y2099`). -/
def Y2099 : ℤ := 4070908800

def MIN_PEERS_LIMIT : ℤ := 2

def MAX_PEERS_LIMIT : ℤ := 8

def MAX_PEERS_DEFAULT : ℤ := 2

/-! ## Spork identifiers and defaults

`SporkID` lives in `dash_msg.py`, which is not part of the sources under
review; only its numeric values and its `has_value` membership test are
needed here. -/

/-- Modelled from the spec: the `SporkID` enumeration of `dash_msg.py` is
absent from the sources; the spec's spork table ("SporkEntry: spork id
(integer)", static default table of §4.2) references exactly the spork
identifiers named in `SPORKS_DEFAULTS`, whose standard Dash network numeric
values are `10000 + n - 1` for `SPORK_n`. -/
def SporkID_values : List ℤ :=
  [10001, 10002, 10004, 10005, 10008, 10011, 10014, 10015, 10016, 10018, 10019]

/-- Modelled from the spec: `SporkID.has_value(id)` is membership in the
`SporkID` enumeration. -/
def SporkID_has_value (spork_id : ℤ) : Bool :=
  SporkID_values.contains spork_id

/-- Embeds `DashSporks.SPORKS_DEFAULTS`: the static default table, keyed by the
numeric spork id (association list, source order). -/
def SPORKS_DEFAULTS : List (ℤ × ℤ) :=
  [(10001, 0),        -- SPORK_2_INSTANTSEND_ENABLED: ON
   (10002, 0),        -- SPORK_3_INSTANTSEND_BLOCK_FILTERING: ON
   (10004, 1000),     -- SPORK_5_INSTANTSEND_MAX_VALUE: 1000 Dash
   (10005, Y2099),    -- SPORK_6_NEW_SIGS: OFF
   (10008, Y2099),    -- SPORK_9_SUPERBLOCKS_ENABLED: OFF
   (10011, 0),        -- SPORK_12_RECONSIDER_BLOCKS: 0 Blocks
   (10014, Y2099),    -- SPORK_15_DETERMINISTIC_MNS_ENABLED: OFF
   (10015, Y2099),    -- SPORK_16_INSTANTSEND_AUTOLOCKS: OFF
   (10016, Y2099),    -- SPORK_17_QUORUM_DKG_ENABLED: OFF
   (10018, Y2099),    -- SPORK_19_CHAINLOCKS_ENABLED: OFF
   (10019, Y2099)]    -- SPORK_20_INSTANTSEND_LLMQ_BASED: OFF

/-! ## `DashSporks` state and operations (`dash_net.py` lines 86-147) -/

/-- Mutable state of a `DashSporks` instance: `self.from_peers` (a `set`) and
`self.gathered_sporks` (a `dict` spork id → value, insertion ordered). -/
structure DashSporksState where
  from_peers : Finset String
  gathered_sporks : List (ℤ × ℤ)
  deriving DecidableEq

/-- Python `dict` assignment `d[k] = v` on an association list with unique
keys: replace the value at the first occurrence of `k`, else append. -/
def dictSet : List (ℤ × ℤ) → ℤ → ℤ → List (ℤ × ℤ)
  | [], k, v => [(k, v)]
  | (k0, v0) :: rest, k, v =>
      if k0 = k then (k, v) :: rest else (k0, v0) :: dictSet rest k v

/-- Embeds `DashSporks.set_spork(spork_id, value, peer)`: store the value only when
the id is a known `SporkID` (otherwise only log), then record the source
peer unconditionally. -/
def set_spork (st : DashSporksState) (spork_id value : ℤ) (peer : String) :
    DashSporksState :=
  let st :=
    if SporkID_has_value spork_id then
      { st with gathered_sporks := dictSet st.gathered_sporks spork_id value }
    else
      st  -- logger.info(f'unknown spork id: {spork_id}'), no store
  { st with from_peers := insert peer st.from_peers }

/-- Embeds `DashSporks.is_spork_active(spork_id)`: gathered value if present, else
default-table value, else inactive; active iff value < `time.time()`. -/
def is_spork_active (st : DashSporksState) (spork_id : ℤ) (now : ℚ) : Bool :=
  let value :=
    match st.gathered_sporks.lookup spork_id with
    | some v => some v
    | none => SPORKS_DEFAULTS.lookup spork_id
  match value with
  | none => false
  | some v => decide ((v : ℚ) < now)

/-! ## IEEE-754 double model for `_gather_sporks` (`dash_net.py` lines 557-572)

`gather_cnt = round(peers_cnt * 0.51)` is evaluated by Python in binary64
arithmetic; all the values involved are of the form `p / 2 ^ 53` for a
natural `p`, which the following helpers manipulate exactly. -/

/-- Round `p / q` to the nearest natural number, ties to even. -/
def rneDivN (p q : ℕ) : ℕ :=
  let d := p / q
  let r := p % q
  if r * 2 < q then d
  else if q < r * 2 then d + 1
  else if d % 2 = 0 then d else d + 1

/-- Fuel-driven floor of the base-2 logarithm (structural recursion so that
proofs can evaluate it by kernel reduction). -/
def log2fuel : ℕ → ℕ → ℕ
  | 0, _ => 0
  | fuel + 1, n => if n ≤ 1 then 0 else log2fuel fuel (n / 2) + 1

/-- Note `natLog2 n = ⌊log2 n⌋` for `n ≥ 1` (`n` itself is always enough fuel). -/
def natLog2 (n : ℕ) : ℕ := log2fuel n n

/-- Round a natural `p` to 53 significant bits (nearest, ties to even): the
effect of storing the integer `p` (or a value with numerator `p`) in a
binary64 significand. -/
def fp53 (p : ℕ) : ℕ :=
  let b := natLog2 p
  if b ≤ 52 then p else rneDivN p (2 ^ (b - 52)) * 2 ^ (b - 52)

/-- The binary64 value of the literal `0.51`, as a numerator over `2 ^ 53`:
`51 / 100` correctly rounded to 53 significant bits. -/
def float051_num : ℕ := rneDivN (51 * 2 ^ 53) 100

/-- Numerator over `2 ^ 53` of the binary64 product `float(n) * 0.51`:
convert `n` to double, multiply by the double `0.51`, round the product to
53 significant bits. -/
def fpMul051_num (n : ℕ) : ℕ :=
  fp53 (fp53 n * float051_num)

/-- Embeds `_gather_sporks` per-iteration required contributor count for
`peers_cnt = n`: `n` when `n <= 2`, else Python `round(n * 0.51)`
(correctly rounded double product, then round-half-to-even to an integer). -/
def gather_cnt (n : ℕ) : ℕ :=
  if n ≤ 2 then n else rneDivN (fpMul051_num n) (2 ^ 53)

/-! ## `max_peers` property (`dash_net.py` lines 491-500) -/

/-- The slice of `DashNet` state touched by the `max_peers` property:
`self._max_peers` and the persisted `dash_max_peers` configuration key. -/
structure MaxPeersState where
  _max_peers : ℤ
  config_dash_max_peers : Option ℤ
  deriving DecidableEq

/-- The `max_peers` setter: clamp below to `MIN_PEERS_LIMIT`, then above to
`MAX_PEERS_LIMIT`, store, and persist via `config.set_key`. -/
def set_max_peers (s : MaxPeersState) (cnt : ℤ) : MaxPeersState :=
  let cnt := if cnt < MIN_PEERS_LIMIT then MIN_PEERS_LIMIT else cnt
  let cnt := if MAX_PEERS_LIMIT < cnt then MAX_PEERS_LIMIT else cnt
  { s with _max_peers := cnt, config_dash_max_peers := some cnt }

/-- The `max_peers` getter: return `self._max_peers`. -/
def get_max_peers (s : MaxPeersState) : ℤ :=
  s._max_peers

/-! ## Recent islocks cache (`dash_net.py` lines 221-225, 370-377) -/

/-- One entry of `self.recent_islocks`: the tuple
`(txid, time.time(), islock, quorum, request_id)`; the islock payload,
quorum and request id are opaque external objects, represented by an
uninterpreted token. -/
structure IsLockRecord where
  txid : String
  rtime : ℚ
  payload : ℕ
  deriving DecidableEq

/-- The islock-cache slice of `DashNet` state: `self.recent_islocks` and the
last-cleared stamp `self.recent_islocks_clear`. -/
structure IsLockState where
  recent_islocks : List IsLockRecord
  recent_islocks_clear : ℚ
  deriving DecidableEq

/-- Embeds `DashNet.clear_recent_islocks(keep_sec=900)` at wall time `now`: return
unchanged (no scan) while less than `keep_sec/15` seconds have passed since
the last scan; otherwise keep exactly the records younger than `keep_sec`
and stamp the scan time. -/
def clear_recent_islocks (s : IsLockState) (now keep_sec : ℚ) : IsLockState :=
  if now - s.recent_islocks_clear < keep_sec / 15 then s
  else
    { recent_islocks :=
        s.recent_islocks.filter (fun x => decide (now - x.rtime < keep_sec)),
      recent_islocks_clear := now }

/-- Whether a `clear_recent_islocks` call at time `now` performs an actual
scan (does not return early on the 60-second throttle). -/
def islock_prune_scans (s : IsLockState) (now keep_sec : ℚ) : Bool :=
  !decide (now - s.recent_islocks_clear < keep_sec / 15)

/-! ## Recent dsq cache (`dash_net.py` lines 227-229, 379-389) -/

/-- Modelled from the spec: the `PSDenoms` enumeration of `dash_ps_net.py`
(the spec's "known enumerated set" of denominations, §4.4) is absent from
the sources; its standard Dash values are the five denomination bits. -/
def PSDenoms : List ℕ := [1, 2, 4, 8, 16]

/-- A `dsq` (mixing-queue announcement) message: denomination, masternode
outpoint (rendered as its string form), broadcast time, and the remaining
wire fields collapsed into an uninterpreted token. -/
structure Dsq where
  nDenom : ℕ
  masternodeOutPoint : String
  nTime : ℤ
  rest : ℕ
  deriving DecidableEq

/-- The dedup fingerprint `f'{nDenom}:{dsq.masternodeOutPoint}:{dsq.nTime}'`. -/
def dsq_hash (d : Dsq) : String :=
  toString d.nDenom ++ ":" ++ d.masternodeOutPoint ++ ":" ++ toString d.nTime

/-- Python `collections.deque(maxlen).append(x)`: add at the right, evicting from
the left when the bound is exceeded. -/
def dequeAppend (maxlen : ℕ) (xs : List α) (x : α) : List α :=
  if maxlen < (xs ++ [x]).length then
    (xs ++ [x]).drop ((xs ++ [x]).length - maxlen)
  else xs ++ [x]

/-- Python `collections.deque(maxlen).appendleft(x)`: add at the left, evicting
from the right when the bound is exceeded. -/
def dequeAppendLeft (maxlen : ℕ) (xs : List α) (x : α) : List α :=
  if maxlen < (x :: xs).length then (x :: xs).take maxlen else x :: xs

/-- The dsq-cache slice of `DashNet` state: `self.recent_dsq` (100-slot ring)
and `self.recent_dsq_hashes` (50-slot fingerprint ring). -/
structure DsqState where
  recent_dsq : List Dsq
  recent_dsq_hashes : List String
  deriving DecidableEq

/-- Embeds `DashNet.add_recent_dsq(dsq)`: drop unknown denominations; drop
fingerprints already in the 50-slot ring; otherwise push the fingerprint
(right, bound 50) and the record (left, bound 100). -/
def add_recent_dsq (s : DsqState) (dsq : Dsq) : DsqState :=
  if dsq.nDenom ∉ PSDenoms then s
  else if dsq_hash dsq ∈ s.recent_dsq_hashes then s
  else
    { recent_dsq_hashes := dequeAppend 50 s.recent_dsq_hashes (dsq_hash dsq),
      recent_dsq := dequeAppendLeft 100 s.recent_dsq dsq }

/-! ## Peer-pool orchestrator state (`dash_net.py` lines 200-230, 434-658)

`self.peers` is a `dict` address → `DashPeer`; the connection handles are
opaque external objects, so the map is modelled by its key set.  `banlist`
is likewise modelled by its key set. -/

structure DashNetState where
  /-- Whether `self.main_taskgroup` is set (not `None`). -/
  main_taskgroup : Bool
  /-- Key set of the live-peer map `self.peers`. -/
  peers : Finset String
  /-- The attribute written by `stop()`'s assignment `self.peeers = {}`
  (distinct from `self.peers`); `none` until first written. -/
  peeers : Option (Finset String)
  /-- Field `self.connecting`. -/
  connecting : Finset String
  /-- Field `self.peers_queue` (`None` when stopped). -/
  peers_queue : Option (List String)
  /-- Field `self.found_peers`. -/
  found_peers : Finset String
  /-- Key set of `self.banlist`. -/
  banlist : Finset String
  /-- Field `self.static_peers`. -/
  static_peers : List String
  /-- Field `self.use_static_peers`. -/
  use_static_peers : Bool
  /-- Field `self.disconnected_static`: static peer → disconnect time. -/
  disconnected_static : List (String × ℚ)
  /-- Field `self._max_peers`. -/
  max_peers : ℕ
  deriving DecidableEq

/-- Embeds `DashNet.peers_total`: `len(self.connecting.union(self.peers))`. -/
def peers_total (s : DashNetState) : ℕ :=
  (s.connecting ∪ s.peers).card

/-- Embeds `DashNet._start_peer(peer)`: dial `peer` only when it is in neither the
live map nor the connecting set; then it joins `connecting` and the pending
queue. -/
def start_peer (s : DashNetState) (peer : String) : DashNetState :=
  if peer ∉ s.peers ∧ peer ∉ s.connecting then
    { s with connecting := insert peer s.connecting,
             peers_queue := s.peers_queue.map (fun q => q ++ [peer]) }
  else s

/-- Embeds `DashNet._run_new_peer(peer)`, success path: the handshake became ready,
the `assert peer not in self.peers` passed, the peer is registered in the
live map and the `finally` block removes it from `connecting`. -/
def run_new_peer_ok (s : DashNetState) (peer : String) : DashNetState :=
  { s with peers := insert peer s.peers,
           connecting := s.connecting.erase peer }

/-- Embeds `DashNet._run_new_peer(peer)`, failure path (timeout/cancel, or the
assert fired): the live map is unchanged and the `finally` block removes the
peer from `connecting`. -/
def run_new_peer_fail (s : DashNetState) (peer : String) : DashNetState :=
  { s with connecting := s.connecting.erase peer }

/-- Embeds `DashNet._close_peer(peer, dash_peer)` as it affects the key set: the
address leaves the live map. -/
def close_peer (s : DashNetState) (peer : String) : DashNetState :=
  { s with peers := s.peers.erase peer }

/-- Embeds `DashNet._start()` (state mutation only; the asserts on emptiness are
modelled as the guard): a fresh task group and a fresh empty queue. -/
def dash_start (s : DashNetState) : DashNetState :=
  if ¬s.main_taskgroup ∧ s.peers = ∅ ∧ s.connecting = ∅ ∧ s.peers_queue = none
  then { s with main_taskgroup := true, peers_queue := some [] }
  else s

/-- Embeds `DashNet.stop()`: return early when no task group is running; otherwise
cancel it (2-second grace ceiling, stragglers abandoned), then run the
reset assignments.  Note the source writes `self.peeers = {}` — a new,
misspelled attribute — so `self.peers` itself is left untouched. -/
def stop (s : DashNetState) : DashNetState :=
  if ¬s.main_taskgroup then s
  else
    { s with main_taskgroup := false,
             peeers := some ∅,           -- self.peeers = {}
             connecting := ∅,            -- self.connecting.clear()
             peers_queue := none }       -- self.peers_queue = None

/-- Embeds `DashNet.find_peers()` lines 503-505: the discovery candidate union
`(peers ∪ connecting ∪ found_peers) \ banlist` whose size drives the
trigger policy. -/
def find_peers_union (s : DashNetState) : Finset String :=
  ((s.peers ∪ s.connecting) ∪ s.found_peers) \ s.banlist

/-- Embeds `DashNet.queue_peers()`, dynamic branch, lines 538-540: the dial
candidate set `found_peers \ (connecting ∪ peers) \ banlist` from which a
random element is dialed. -/
def queue_peers_available (s : DashNetState) : Finset String :=
  (s.found_peers \ (s.connecting ∪ s.peers)) \ s.banlist

/-- Body of the static-mode `for peer in self.static_peers` loop of
`DashNet.queue_peers()` (lines 524-535): stop at capacity; skip addresses
already live or connecting; skip static peers disconnected less than 10
seconds ago; dial the rest.  Note there is no ban-list check on this path. -/
def queue_peers_static_go (s : DashNetState) (now : ℚ) :
    List String → DashNetState
  | [] => s
  | peer :: rest =>
    if s.max_peers ≤ peers_total s then s  -- break
    else if peer ∉ s.peers ∧ peer ∉ s.connecting then
      match (s.disconnected_static.lookup peer : Option ℚ) with
      | some disconnected_time =>
          if now - disconnected_time < 10 then
            queue_peers_static_go s now rest  -- 10 sec interval on reconnect
          else
            queue_peers_static_go
              (start_peer
                { s with disconnected_static :=
                    s.disconnected_static.filter (fun p => !(p.1 = peer)) }
                peer) now rest
      | none => queue_peers_static_go (start_peer s peer) now rest
    else queue_peers_static_go s now rest

/-- Embeds `DashNet.queue_peers()`, static mode: return at capacity, else walk the
static list.  (The dynamic branch is a paced loop dialing random members of
`queue_peers_available`; it is modelled by the `dynamic_dial` step below.) -/
def queue_peers_static (s : DashNetState) (now : ℚ) : DashNetState :=
  if s.max_peers ≤ peers_total s then s
  else queue_peers_static_go s now s.static_peers

/-- The fresh `DashNet.__init__` state (dynamic mode, empty banlist). -/
def dashInit : DashNetState :=
  { main_taskgroup := false, peers := ∅, peeers := none, connecting := ∅,
    peers_queue := none, found_peers := ∅, banlist := ∅, static_peers := [],
    use_static_peers := false, disconnected_static := [], max_peers := 2 }

/-- One quiescent-point-to-quiescent-point transition of the orchestrator:
each constructor is one of the pool-mutating operations of `DashNet`. -/
inductive DashStep : DashNetState → DashNetState → Prop
  | start_peer (s : DashNetState) (p : String) :
      DashStep s (start_peer s p)
  | promote (s : DashNetState) (p : String) (h : p ∉ s.peers) :
      DashStep s (run_new_peer_ok s p)
  | connect_fail (s : DashNetState) (p : String) :
      DashStep s (run_new_peer_fail s p)
  | close (s : DashNetState) (p : String) :
      DashStep s (close_peer s p)
  | do_start (s : DashNetState) :
      DashStep s (dash_start s)
  | do_stop (s : DashNetState) :
      DashStep s (stop s)
  | static_queue (s : DashNetState) (now : ℚ) :
      DashStep s (queue_peers_static s now)
  | dynamic_dial (s : DashNetState) (p : String)
      (h : p ∈ queue_peers_available s) :
      DashStep s (start_peer s p)

/-- The claimed pool invariant: a live peer is never simultaneously in the
connecting set. -/
def DashInv (s : DashNetState) : Prop :=
  ∀ p : String, p ∈ s.peers → p ∉ s.connecting

/-! ## Hostname validation (`dash_net.py` lines 66, 72-77) -/

/-- A character of the regex class `[A-Z\d-]` under `re.IGNORECASE`
(restricted to the ASCII fragment of Python's Unicode classes). -/
def label_class_char (c : Char) : Bool :=
  c.isAlpha || c.isDigit || c = '-'

/-- Core of a match of `ALLOWED_HOSTNAME_RE` consuming all of `l`: one to 63
characters of the class, with the trailing-hyphen lookbehind. -/
def label_core (l : List Char) : Bool :=
  decide (1 ≤ l.length) && decide (l.length ≤ 63) && l.all label_class_char &&
    (match l.getLast? with
     | some c => !(c = '-')
     | none => false)

/-- Embeds `ALLOWED_HOSTNAME_RE.match(x)` as a Boolean:
`(?!-)[A-Z\d-]{1,63}(?<!-)$` with `re.IGNORECASE`, anchored at the start by
`re.match`; `$` also matches just before one trailing newline. -/
def allowed_hostname_match (x : String) : Bool :=
  let l := x.data
  (match l.head? with
   | some c => !(c = '-')
   | none => false) &&
  (label_core l ||
    (match l.getLast? with
     | some c => decide (c = '\n') && label_core l.dropLast
     | none => false))

/-- Embeds `is_valid_hostname(hostname)`: `none` models the uncaught `IndexError`
raised by `hostname[-1]` on the empty string. -/
def is_valid_hostname (hostname : String) : Option Bool :=
  if 255 < hostname.length then some false
  else if hostname.length = 0 then none  -- hostname[-1] raises IndexError
  else
    let hostname :=
      if hostname.back = '.' then hostname.dropRight 1 else hostname
    some ((hostname.splitOn ".").all allowed_hostname_match)

/-! ## Concrete states used as test inputs -/

/-- A running orchestrator with one live peer and nothing in flight. -/
def startedOnePeer : DashNetState :=
  { dashInit with main_taskgroup := true, peers := {"1.2.3.4:9999"},
                  peers_queue := some [] }

/-- A running orchestrator in static-peer mode whose single static peer is
on the ban list. -/
def staticBanned : DashNetState :=
  { dashInit with main_taskgroup := true, peers_queue := some [],
                  banlist := {"1.2.3.4:9999"},
                  static_peers := ["1.2.3.4:9999"], use_static_peers := true }

/-! ## Helper lemmas -/

/-- Setting `dict[k] = v` makes `k` look up to `v`. -/
theorem lookup_dictSet_self (xs : List (ℤ × ℤ)) (k v : ℤ) :
    List.lookup k (dictSet xs k v) = some v := by
  induction xs with
  | nil => simp [dictSet, List.lookup]
  | cons hd tl ih =>
    obtain ⟨k0, v0⟩ := hd
    by_cases h : k0 = k
    · simp [dictSet, h, List.lookup]
    · simp only [dictSet, if_neg h, List.lookup]
      have : (k == k0) = false := by
        simp [beq_eq_false_iff_ne]
        exact fun hk => h hk.symm
      simp [this, ih]

/-- Lemma `_start_peer` preserves the live/connecting disjointness. -/
theorem DashInv.start_peer {s : DashNetState} (hs : DashInv s) (p : String) :
    DashInv (DashNetSpec.start_peer s p) := by
  unfold DashNetSpec.start_peer
  split_ifs with h
  · intro q hq
    simp only [Finset.mem_insert]
    rintro (rfl | hq2)
    · exact h.1 hq
    · exact hs q hq hq2
  · exact hs

/-- Promoting a ready handshake preserves the disjointness: the promoted
address is removed from `connecting` by the `finally` block. -/
theorem DashInv.run_new_peer_ok {s : DashNetState} (hs : DashInv s)
    (p : String) : DashInv (DashNetSpec.run_new_peer_ok s p) := by
  intro q hq
  simp only [DashNetSpec.run_new_peer_ok, Finset.mem_insert] at hq
  simp only [DashNetSpec.run_new_peer_ok, Finset.mem_erase, not_and]
  intro hqp
  rcases hq with rfl | hq
  · exact absurd rfl hqp
  · exact hs q hq

/-- The invariant only depends on the `peers` and `connecting` fields. -/
theorem DashInv.congr_fields {s t : DashNetState} (hs : DashInv s)
    (hp : t.peers = s.peers) (hc : t.connecting = s.connecting) :
    DashInv t := by
  intro q hq
  rw [hp] at hq
  rw [hc]
  exact hs q hq

/-- The static-mode top-up loop body preserves the disjointness. -/
theorem DashInv.queue_peers_static_go {s : DashNetState} (hs : DashInv s)
    (now : ℚ) (l : List String) :
    DashInv (DashNetSpec.queue_peers_static_go s now l) := by
  induction l generalizing s with
  | nil => exact hs
  | cons p rest ih =>
    unfold DashNetSpec.queue_peers_static_go
    split_ifs with h1 h2
    · exact hs
    · cases hl : (List.lookup p s.disconnected_static : Option ℚ) with
      | some t =>
          simp only [hl]
          split_ifs with h3
          · exact ih hs
          · refine ih (DashInv.start_peer ?_ p)
            exact hs.congr_fields rfl rfl
      | none => simp only [hl]; exact ih (hs.start_peer p)
    · exact ih hs

/-- Element `x` is still in the ring right after being appended. -/
theorem mem_dequeAppend_self {α : Type} (maxlen : ℕ) (hm : 1 ≤ maxlen)
    (xs : List α) (x : α) : x ∈ dequeAppend maxlen xs x := by
  unfold dequeAppend
  split_ifs with h
  · rw [List.drop_append_eq_append_drop]
    refine List.mem_append_right _ ?_
    have hlen : (xs ++ [x]).length - maxlen ≤ xs.length := by
      simp only [List.length_append, List.length_singleton]
      omega
    have : (xs ++ [x]).length - maxlen - xs.length = 0 := by omega
    rw [this]
    simp
  · exact List.mem_append_right _ (List.mem_singleton.mpr rfl)

/-- A fresh element appended to the fingerprint ring occurs exactly once. -/
theorem count_dequeAppend_self {α : Type} [DecidableEq α] (maxlen : ℕ)
    (hm : 1 ≤ maxlen) {xs : List α} {x : α} (hx : x ∉ xs) :
    (dequeAppend maxlen xs x).count x = 1 := by
  unfold dequeAppend
  have hzero : ∀ l : List α, l ⊆ xs → l.count x = 0 := fun l hl =>
    List.count_eq_zero.mpr (fun hmem => hx (hl hmem))
  split_ifs with h
  · rw [List.drop_append_eq_append_drop]
    have hlen : (xs ++ [x]).length - maxlen ≤ xs.length := by
      simp only [List.length_append, List.length_singleton]
      omega
    have h0 : (xs ++ [x]).length - maxlen - xs.length = 0 := by omega
    rw [h0, List.count_append, hzero _ (List.drop_subset _ _)]
    simp [List.count_singleton]
  · rw [List.count_append, hzero xs (fun a ha => ha)]
    simp [List.count_singleton]

/-- A fresh element pushed at the front of the record ring occurs exactly
once. -/
theorem count_dequeAppendLeft_self {α : Type} [DecidableEq α] (maxlen : ℕ)
    (hm : 1 ≤ maxlen) {xs : List α} {x : α} (hx : x ∉ xs) :
    (dequeAppendLeft maxlen xs x).count x = 1 := by
  unfold dequeAppendLeft
  have hzero : ∀ l : List α, l ⊆ xs → l.count x = 0 := fun l hl =>
    List.count_eq_zero.mpr (fun hmem => hx (hl hmem))
  split_ifs with h
  · cases maxlen with
    | zero => omega
    | succ m =>
      rw [List.take_succ_cons, List.count_cons_self,
          hzero _ (List.take_subset _ _)]
  · rw [List.count_cons_self, hzero xs (fun a ha => ha)]

/-! ## Claim theorems -/

/-- C1: after `stop()` on a started orchestrator the connecting set and the
pending-connect queue are indeed reset, but the live-peer map is NOT: the
reset assignment writes the misspelled attribute `self.peeers`, leaving
`self.peers` with its entries (contradicting `_start`'s
`assert not self.peers` on the next start).  Evaluated on a started state
holding one live peer. -/
theorem C1_stop_leaves_live_peer_map :
    (stop startedOnePeer).peers = {"1.2.3.4:9999"} ∧
    (stop startedOnePeer).peers ≠ ∅ ∧
    (stop startedOnePeer).connecting = ∅ ∧
    (stop startedOnePeer).peers_queue = none ∧
    (stop startedOnePeer).peeers = some ∅ := by
  refine ⟨rfl, ?_, rfl, rfl, rfl⟩
  decide

/-- C2 counterexample: at a connected-peer count of 4 the gather loop
requires `round(4 * 0.51) = 2` contributors, while the claim's formula
`ceil(0.51 * 4)` gives 3. -/
theorem C2_counterexample_round_vs_ceil :
    gather_cnt 4 = 2 ∧ ⌈(0.51 : ℚ) * 4⌉ = 3 ∧ gather_cnt 4 ≠ 3 := by
  refine ⟨by decide, ?_, by decide⟩
  norm_num [Int.ceil_eq_iff]

/-- C2 (amended): the required contributor quorum equals the peer count for
counts 1 and 2; for counts above 2 it is Python's `round(n * 0.51)` under
binary64 arithmetic — over the attainable pool sizes 3..8 the values
2, 2, 3, 3, 4, 4, i.e. `ceil(n / 2)`, not `ceil(0.51 * n)`. -/
theorem C2_gather_quorum :
    gather_cnt 1 = 1 ∧ gather_cnt 2 = 2 ∧
    gather_cnt 3 = 2 ∧ gather_cnt 4 = 2 ∧ gather_cnt 5 = 3 ∧
    gather_cnt 6 = 3 ∧ gather_cnt 7 = 4 ∧ gather_cnt 8 = 4 := by
  decide

/-- C3 counterexample: `set_spork` does not overwrite the gathered table for
every spork id — id 1 is not in the `SporkID` enumeration, so
`set_spork(1, 7, "p")` on an empty registry stores nothing (while still
recording the peer). -/
theorem C3_counterexample_unknown_spork_id :
    (set_spork ⟨∅, []⟩ 1 7 "p").gathered_sporks = [] ∧
    "p" ∈ (set_spork ⟨∅, []⟩ 1 7 "p").from_peers := by
  constructor
  · rfl
  · decide

/-- C3 (amended): for every spork id belonging to the `SporkID` enumeration,
`set_spork(id, value, peer)` unconditionally overwrites the stored gathered
value for that id (last write wins, no cross-peer validation); for ids
outside the enumeration the gathered table is untouched; the source peer is
recorded in the contributor set in every case. -/
theorem C3_set_spork_overwrites :
    ∀ (st : DashSporksState) (spork_id value : ℤ) (peer : String),
      (SporkID_has_value spork_id = true →
        List.lookup spork_id (set_spork st spork_id value peer).gathered_sporks
          = some value) ∧
      (SporkID_has_value spork_id = false →
        (set_spork st spork_id value peer).gathered_sporks
          = st.gathered_sporks) ∧
      (set_spork st spork_id value peer).from_peers
        = insert peer st.from_peers := by
  intro st spork_id value peer
  unfold set_spork
  cases h : SporkID_has_value spork_id with
  | true =>
    refine ⟨fun _ => ?_, fun hf => by simp at hf ⊢, by simp⟩
    simp only [if_pos rfl]
    exact lookup_dictSet_self st.gathered_sporks spork_id value
  | false =>
    exact ⟨fun ht => by simp at ht, fun _ => by simp, by simp⟩

/-- C3 witness: the amended statement evaluated at a known id (10001), an
unknown id (1), and a concrete peer. -/
theorem C3_set_spork_overwrites_witness :
    List.lookup 10001 (set_spork ⟨∅, []⟩ 10001 7 "p").gathered_sporks
      = some 7 ∧
    (set_spork ⟨∅, []⟩ 1 7 "q").gathered_sporks = ([] : List (ℤ × ℤ)) ∧
    (set_spork ⟨∅, []⟩ 10001 7 "p").from_peers = {"p"} :=
  ⟨(C3_set_spork_overwrites ⟨∅, []⟩ 10001 7 "p").1 (by decide),
   (C3_set_spork_overwrites ⟨∅, []⟩ 1 7 "q").2.1 (by decide),
   (C3_set_spork_overwrites ⟨∅, []⟩ 10001 7 "p").2.2⟩

/-- C4 counterexample: in static-peer mode the top-up loop performs no
ban-list check, so a banned static peer is dialed — it enters both the
connecting set and the pending-connect queue. -/
theorem C4_counterexample_static_banned_dialed :
    "1.2.3.4:9999" ∈ staticBanned.banlist ∧
    "1.2.3.4:9999" ∈ (queue_peers_static staticBanned 1000).connecting ∧
    (queue_peers_static staticBanned 1000).peers_queue
      = some ["1.2.3.4:9999"] := by
  refine ⟨by decide, by decide, ?_⟩
  rfl

/-- C4 (amended): in dynamic mode a banned address is never in the
discovery candidate union of `find_peers` and never in the dial candidate
set of `queue_peers` (both subtract the ban list); in static mode the
static list is dialed without consulting the ban list. -/
theorem C4_banlist_excluded_dynamic :
    ∀ (s : DashNetState) (p : String), p ∈ s.banlist →
      p ∉ find_peers_union s ∧ p ∉ queue_peers_available s := by
  intro s p hp
  constructor
  · simp [find_peers_union, hp]
  · simp [queue_peers_available, hp]

/-- C4 witness: the banned address of `staticBanned` is outside both
dynamic-mode candidate sets. -/
theorem C4_banlist_excluded_dynamic_witness :
    "1.2.3.4:9999" ∉ find_peers_union staticBanned ∧
    "1.2.3.4:9999" ∉ queue_peers_available staticBanned :=
  C4_banlist_excluded_dynamic staticBanned "1.2.3.4:9999" (by decide)

/-- C5: the `max_peers` setter stores the input clamped to `[2, 8]`
(`max 2 (min 8 n)`), persists it to configuration, and the getter returns
the stored value. -/
theorem C5_max_peers_clamp :
    ∀ (s : MaxPeersState) (cnt : ℤ),
      get_max_peers (set_max_peers s cnt) = max 2 (min 8 cnt) ∧
      (set_max_peers s cnt).config_dash_max_peers
        = some (max 2 (min 8 cnt)) := by
  intro s cnt
  have h : (set_max_peers s cnt)._max_peers = max 2 (min 8 cnt) := by
    simp only [set_max_peers, MIN_PEERS_LIMIT, MAX_PEERS_LIMIT]
    split_ifs <;> omega
  have h2 : (set_max_peers s cnt).config_dash_max_peers
      = some (set_max_peers s cnt)._max_peers := rfl
  exact ⟨h, by rw [h2, h]⟩

/-- C6: `is_spork_active` resolves the effective value as the gathered value
if present, else the static default if present, and returns `true` exactly
when that value is strictly below the current time; with neither value it
returns `false`; a gathered value 0 is active at any positive time and the
value 4070908800 (`Y2099`) is inactive at any earlier time. -/
theorem C6_is_spork_active_resolution :
    ∀ (st : DashSporksState) (spork_id : ℤ) (now : ℚ),
      ((List.lookup spork_id st.gathered_sporks = none ∧
        List.lookup spork_id SPORKS_DEFAULTS = none) →
          is_spork_active st spork_id now = false) ∧
      (∀ v : ℤ, List.lookup spork_id st.gathered_sporks = some v →
          (is_spork_active st spork_id now = true ↔ (v : ℚ) < now)) ∧
      (List.lookup spork_id st.gathered_sporks = none →
        ∀ v : ℤ, List.lookup spork_id SPORKS_DEFAULTS = some v →
          (is_spork_active st spork_id now = true ↔ (v : ℚ) < now)) ∧
      (0 < now → List.lookup spork_id st.gathered_sporks = some 0 →
          is_spork_active st spork_id now = true) ∧
      (List.lookup spork_id st.gathered_sporks = some 4070908800 →
          now < 4070908800 → is_spork_active st spork_id now = false) := by
  intro st spork_id now
  refine ⟨?_, ?_, ?_, ?_, ?_⟩
  · rintro ⟨h1, h2⟩
    simp [is_spork_active, h1, h2]
  · intro v h1
    simp [is_spork_active, h1]
  · intro h1 v h2
    simp [is_spork_active, h1, h2]
  · intro hnow h1
    simp [is_spork_active, h1, hnow]
  · intro h1 h2
    simp only [is_spork_active, h1]
    simp only [decide_eq_false_iff_not, not_lt]
    push_cast
    linarith

/-- C6 witness: resolution evaluated at concrete registries — a gathered 0,
an unknown id, a gathered `Y2099` before its epoch, and the static default
0 of spork 10001. -/
theorem C6_is_spork_active_resolution_witness :
    is_spork_active ⟨∅, [((10001 : ℤ), (0 : ℤ))]⟩ 10001 100 = true ∧
    is_spork_active ⟨∅, []⟩ 99 100 = false ∧
    is_spork_active ⟨∅, [((10005 : ℤ), (4070908800 : ℤ))]⟩ 10005 100 = false ∧
    is_spork_active ⟨∅, []⟩ 10001 100 = true :=
  ⟨(C6_is_spork_active_resolution ⟨∅, [(10001, 0)]⟩ 10001 100).2.2.2.1
      (by norm_num) (by decide),
   (C6_is_spork_active_resolution ⟨∅, []⟩ 99 100).1 (by decide),
   (C6_is_spork_active_resolution ⟨∅, [(10005, 4070908800)]⟩ 10005 100).2.2.2.2
      (by decide) (by norm_num),
   ((C6_is_spork_active_resolution ⟨∅, []⟩ 10001 100).2.2.1 (by decide) 0
      (by decide)).mpr (by norm_num)⟩

/-- C7: when a prune pass actually scans, every record older than 900
seconds is gone and every record younger than 900 seconds survives; a
throttled call leaves the state untouched; and of two calls within 60
seconds of each other at most one scans (a scan stamps the clear time, so
the later call is throttled). -/
theorem C7_islock_prune :
    ∀ (s : IsLockState) (now : ℚ) (r : IsLockRecord),
      (islock_prune_scans s now 900 = true →
        ((900 < now - r.rtime →
            r ∉ (clear_recent_islocks s now 900).recent_islocks) ∧
         (r ∈ s.recent_islocks → now - r.rtime < 900 →
            r ∈ (clear_recent_islocks s now 900).recent_islocks))) ∧
      (islock_prune_scans s now 900 = false →
        clear_recent_islocks s now 900 = s) ∧
      (∀ t2 : ℚ, now ≤ t2 → t2 - now < 60 →
        islock_prune_scans s now 900 = true →
        islock_prune_scans (clear_recent_islocks s now 900) t2 900 = false) := by
  intro s now r
  have h15 : (900 : ℚ) / 15 = 60 := by norm_num
  refine ⟨?_, ?_, ?_⟩
  · intro hscan
    simp only [islock_prune_scans, Bool.not_eq_true', decide_eq_false_iff_not,
      not_lt] at hscan
    constructor
    · intro hage hmem
      rw [clear_recent_islocks, if_neg (not_lt.mpr hscan)] at hmem
      have hkeep := (List.mem_filter.mp hmem).2
      rw [decide_eq_true_eq] at hkeep
      linarith
    · intro hmem hage
      rw [clear_recent_islocks, if_neg (not_lt.mpr hscan)]
      exact List.mem_filter.mpr ⟨hmem, decide_eq_true hage⟩
  · intro hnoscan
    simp only [islock_prune_scans, Bool.not_eq_false', decide_eq_true_eq]
      at hnoscan
    rw [clear_recent_islocks, if_pos hnoscan]
  · intro t2 hle hwin hscan
    simp only [islock_prune_scans, Bool.not_eq_true', decide_eq_false_iff_not,
      not_lt] at hscan
    rw [clear_recent_islocks, if_neg (not_lt.mpr hscan)]
    simp only [islock_prune_scans, Bool.not_eq_false', decide_eq_true_eq]
    rw [h15]
    linarith

/-- C7 witness: on a cache whose last scan stamp allows scanning, the
900-second-old record disappears, the young record survives, and a second
call 30 seconds later is throttled. -/
theorem C7_islock_prune_witness :
    (⟨"t1", 50, 0⟩ : IsLockRecord) ∉
      (clear_recent_islocks ⟨[⟨"t1", 50, 0⟩, ⟨"t2", 950, 0⟩], 0⟩
        1000 900).recent_islocks ∧
    (⟨"t2", 950, 0⟩ : IsLockRecord) ∈
      (clear_recent_islocks ⟨[⟨"t1", 50, 0⟩, ⟨"t2", 950, 0⟩], 0⟩
        1000 900).recent_islocks ∧
    islock_prune_scans
      (clear_recent_islocks ⟨[⟨"t1", 50, 0⟩, ⟨"t2", 950, 0⟩], 0⟩ 1000 900)
      1030 900 = false :=
  ⟨((C7_islock_prune ⟨[⟨"t1", 50, 0⟩, ⟨"t2", 950, 0⟩], 0⟩ 1000
      ⟨"t1", 50, 0⟩).1 (by norm_num [islock_prune_scans])).1 (by norm_num),
   ((C7_islock_prune ⟨[⟨"t1", 50, 0⟩, ⟨"t2", 950, 0⟩], 0⟩ 1000
      ⟨"t2", 950, 0⟩).1 (by norm_num [islock_prune_scans])).2
      (by simp) (by norm_num),
   (C7_islock_prune ⟨[⟨"t1", 50, 0⟩, ⟨"t2", 950, 0⟩], 0⟩ 1000
      ⟨"t2", 950, 0⟩).2.2 1030 (by norm_num) (by norm_num)
      (by norm_num [islock_prune_scans])⟩

/-- C8: ingesting two dsq messages with identical
(denomination, outpoint, time) fingerprint leaves the cache exactly as
after the first ingest — and when the first ingest actually stored a fresh
record, both rings hold it exactly once. -/
theorem C8_dsq_dedup :
    ∀ (s : DsqState) (d1 d2 : Dsq),
      d1.nDenom = d2.nDenom →
      d1.masternodeOutPoint = d2.masternodeOutPoint →
      d1.nTime = d2.nTime →
      add_recent_dsq (add_recent_dsq s d1) d2 = add_recent_dsq s d1 ∧
      (d1.nDenom ∈ PSDenoms → dsq_hash d1 ∉ s.recent_dsq_hashes →
        d1 ∉ s.recent_dsq →
        (add_recent_dsq (add_recent_dsq s d1) d2).recent_dsq.count d1 = 1 ∧
        (add_recent_dsq (add_recent_dsq s d1) d2).recent_dsq_hashes.count
          (dsq_hash d1) = 1) := by
  intro s d1 d2 h1 h2 h3
  have hhash : dsq_hash d2 = dsq_hash d1 := by
    unfold dsq_hash
    rw [h1, h2, h3]
  by_cases hden : d1.nDenom ∈ PSDenoms
  · by_cases hdup : dsq_hash d1 ∈ s.recent_dsq_hashes
    · have hfirst : add_recent_dsq s d1 = s := by
        rw [add_recent_dsq, if_neg (not_not_intro hden), if_pos hdup]
      rw [hfirst]
      have hsecond : add_recent_dsq s d2 = s := by
        rw [add_recent_dsq, if_neg (not_not_intro (h1 ▸ hden)),
            if_pos (hhash ▸ hdup)]
      exact ⟨hsecond, fun _ hfresh _ => absurd hdup hfresh⟩
    · have hfirst : add_recent_dsq s d1 =
          ⟨dequeAppendLeft 100 s.recent_dsq d1,
           dequeAppend 50 s.recent_dsq_hashes (dsq_hash d1)⟩ := by
        rw [add_recent_dsq, if_neg (not_not_intro hden), if_neg hdup]
      have hmem : dsq_hash d1 ∈
          dequeAppend 50 s.recent_dsq_hashes (dsq_hash d1) :=
        mem_dequeAppend_self 50 (by norm_num) _ _
      have hsecond : add_recent_dsq (add_recent_dsq s d1) d2
          = add_recent_dsq s d1 := by
        rw [hfirst, add_recent_dsq, if_neg (not_not_intro (h1 ▸ hden)),
            if_pos (show dsq_hash d2 ∈ _ from hhash ▸ hmem)]
      refine ⟨hsecond, fun _ _ hfresh2 => ?_⟩
      rw [hsecond, hfirst]
      exact ⟨count_dequeAppendLeft_self 100 (by norm_num) hfresh2,
             count_dequeAppend_self 50 (by norm_num) hdup⟩
  · have hfirst : add_recent_dsq s d1 = s := by
      rw [add_recent_dsq, if_pos hden]
    rw [hfirst]
    have hsecond : add_recent_dsq s d2 = s := by
      rw [add_recent_dsq, if_pos (h1 ▸ hden)]
    exact ⟨hsecond, fun hd _ _ => absurd hd hden⟩

/-- C8 witness: ingesting the same concrete announcement twice into an
empty cache stores it once in each ring and the second ingest is the
identity. -/
theorem C8_dsq_dedup_witness :
    add_recent_dsq (add_recent_dsq ⟨[], []⟩ ⟨1, "op", 5, 0⟩) ⟨1, "op", 5, 1⟩
      = add_recent_dsq ⟨[], []⟩ ⟨1, "op", 5, 0⟩ ∧
    (add_recent_dsq (add_recent_dsq ⟨[], []⟩ ⟨1, "op", 5, 0⟩)
      ⟨1, "op", 5, 1⟩).recent_dsq.count ⟨1, "op", 5, 0⟩ = 1 ∧
    (add_recent_dsq (add_recent_dsq ⟨[], []⟩ ⟨1, "op", 5, 0⟩)
      ⟨1, "op", 5, 1⟩).recent_dsq_hashes.count (dsq_hash ⟨1, "op", 5, 0⟩)
      = 1 := by
  have h := C8_dsq_dedup ⟨[], []⟩ ⟨1, "op", 5, 0⟩ ⟨1, "op", 5, 1⟩ rfl rfl rfl
  have h2 := h.2 (by decide) (by simp) (by simp)
  exact ⟨h.1, h2.1, h2.2⟩

/-- C9: the live/connecting disjointness is an inductive invariant of the
orchestrator: it holds in the freshly constructed state, dialing adds an
address to `connecting` only when it is in neither set, promotion always
removes it from `connecting`, and every other pool-mutating operation
preserves the property. -/
theorem C9_live_connecting_disjoint :
    DashInv dashInit ∧
    ∀ (s s2 : DashNetState), DashInv s → DashStep s s2 → DashInv s2 := by
  constructor
  · intro p hp
    simp [dashInit] at hp
  · intro s s2 hs hstep
    cases hstep with
    | start_peer p => exact hs.start_peer p
    | promote p _ => exact hs.run_new_peer_ok p
    | connect_fail p =>
        intro q hq
        simp only [run_new_peer_fail, Finset.mem_erase, not_and]
        exact fun _ => hs q hq
    | close p =>
        intro q hq
        exact hs q (Finset.mem_of_mem_erase hq)
    | do_start =>
        unfold dash_start
        split_ifs
        · exact fun q hq => hs q hq
        · exact hs
    | do_stop =>
        unfold stop
        split_ifs
        · intro q hq
          exact Finset.not_mem_empty q
        · exact hs
    | static_queue now =>
        unfold queue_peers_static
        split_ifs
        · exact hs
        · exact hs.queue_peers_static_go now s.static_peers
    | dynamic_dial p _ => exact hs.start_peer p

/-- C9 witness: starting from the fresh state, dialing then promoting a
concrete address leaves it outside the connecting set. -/
theorem C9_live_connecting_disjoint_witness :
    "5.6.7.8:9999" ∉
      (run_new_peer_ok (start_peer dashInit "5.6.7.8:9999")
        "5.6.7.8:9999").connecting :=
  (C9_live_connecting_disjoint.2 (start_peer dashInit "5.6.7.8:9999")
      (run_new_peer_ok (start_peer dashInit "5.6.7.8:9999") "5.6.7.8:9999")
      (C9_live_connecting_disjoint.2 dashInit
        (start_peer dashInit "5.6.7.8:9999")
        C9_live_connecting_disjoint.1
        (DashStep.start_peer dashInit "5.6.7.8:9999"))
      (DashStep.promote (start_peer dashInit "5.6.7.8:9999") "5.6.7.8:9999"
        (by decide)))
    "5.6.7.8:9999" (by decide)

/-- C10: the hostname validator is not total — the empty string hits the
out-of-range index `hostname[-1]` (modelled as `none`) while every
non-empty string yields a Boolean. -/
theorem C10_hostname_validator_totality :
    is_valid_hostname "" = none ∧
    ∀ s : String, s ≠ "" → (is_valid_hostname s).isSome = true := by
  constructor
  · rfl
  · intro s hs
    unfold is_valid_hostname
    split_ifs with h1 h2 h3
    · rfl
    · exfalso
      apply hs
      cases s with
      | mk data =>
        cases data with
        | nil => rfl
        | cons c cs => simp [String.length] at h2
    · rfl
    · rfl

/-- C10 witness: the validator returns a Boolean on a concrete non-empty
hostname. -/
theorem C10_hostname_validator_totality_witness :
    (is_valid_hostname "dnsseed.dash.org").isSome = true :=
  C10_hostname_validator_totality.2 "dnsseed.dash.org" (by decide)

end DashNetSpec
